import Mathlib

/-!
Shallow embedding of the context-window manager in
src/Context Window Management Challenge/llm.py, and verification of its
specified properties.

The llm class keeps two message lists: full_message_history (the verbatim
log) and summarized_message_history (the active, possibly compressed,
window).  The OpenAI client is the external generation service; we model
each of its two endpoints as an oracle function supplied as an argument, so
that network success, failure and reported token usage are all explicit.
The DEBUG flag only controls console printing and is omitted.
-/

namespace Llm

/-- A chat message: a dictionary with role and content keys, as used
throughout llm.py. -/
structure Message where
  role : String
  content : String
  deriving DecidableEq

/-- State of an llm object: the two parallel histories (llm.py lines 7-8). -/
structure LLMState where
  full_message_history : List Message
  summarized_message_history : List Message
  deriving DecidableEq

/-- The fixed token threshold set in the constructor (llm.py line 14). -/
def token_threshold_to_trigger_summarization : Nat := 1024

/-- Errors surfaced by the embedded operations.  invalidRole models the
ValueError raised for a bad role in send_message; serviceError models a
network or service failure inside a client.chat.completions.create call;
contextWindowExceeded models the ValueError raised when usage.total_tokens
exceeds 4096; indexError models a Python IndexError from indexing an empty
list. -/
inductive LLMError where
  | invalidRole
  | serviceError
  | contextWindowExceeded
  | indexError
  deriving DecidableEq

/-- Reply of a chat completions call: the message content of the first
choice together with the reported usage.total_tokens. -/
structure ChatResponse where
  content : String
  total_tokens : Nat
  deriving DecidableEq

/-- Model of the underlying client.chat.completions.create call used by
gpt4_conversation: given the message list and the response-format flag, the
service either fails or returns a reply with its token usage. -/
abbrev ConvClient : Type := List Message → Bool → Except LLMError ChatResponse

/-- Model of client.chat.completions.create as used by gpt4_one_shot: given
the system prompt, the user prompt and the response-format flag. -/
abbrev OneShotClient : Type := String → String → Bool → Except LLMError ChatResponse

/-- Number of maximal runs of non-whitespace characters in a character list,
carrying a flag recording whether the previous character was inside a word.
In Python, len(s.split()) equals countWords s.toList false, because
str.split() with no separator splits on runs of whitespace and drops empty
pieces. -/
def countWords : List Char → Bool → Nat
  | [], _ => 0
  | c :: cs, inWord =>
    if c.isWhitespace then countWords cs false
    else (if inWord then 0 else 1) + countWords cs true

/-- len(content.split()) for a Python string content. -/
def wordCount (s : String) : Nat := countWords s.toList false

/-- llm.calculate_total_tokens (llm.py lines 26-36): the sum, over the
messages, of the whitespace-delimited word count of each content field.
Python sum over a generator is a left fold starting at 0. -/
def calculate_total_tokens (messages : List Message) : Nat :=
  List.foldl (fun acc message => acc + wordCount message.content) 0 messages

/-- llm.add_message_to_history (llm.py lines 16-24): appends the message to
both the full and the summarized history. -/
def add_message_to_history (st : LLMState) (message : Message) : LLMState :=
  { full_message_history := st.full_message_history ++ [message]
    summarized_message_history := st.summarized_message_history ++ [message] }

/-- llm.gpt4_one_shot (llm.py lines 178-225): performs the one-shot client
call and raises when the reported usage.total_tokens exceeds 4096; otherwise
returns the content of the first choice. -/
def gpt4_one_shot (client : OneShotClient) (system_prompt user_prompt : String)
    (json_response : Bool) : Except LLMError String :=
  match client system_prompt user_prompt json_response with
  | Except.error e => Except.error e
  | Except.ok response =>
    if response.total_tokens > 4096 then Except.error LLMError.contextWindowExceeded
    else Except.ok response.content

/-- llm.gpt4_conversation (llm.py lines 133-175): performs the multi-turn
client call and raises when the reported usage.total_tokens exceeds 4096;
otherwise returns the full response. -/
def gpt4_conversation (client : ConvClient) (messages : List Message)
    (json_response : Bool) : Except LLMError ChatResponse :=
  match client messages json_response with
  | Except.error e => Except.error e
  | Except.ok response =>
    if response.total_tokens > 4096 then Except.error LLMError.contextWindowExceeded
    else Except.ok response

/-- llm.summarize_chat_history (llm.py lines 38-57): renders every message of
the summarized history except the last as role-colon-content, joined by
single spaces, sends it with a fixed system prompt through gpt4_one_shot
(json_response left at its default False), and wraps the textual reply as a
one-element system-role history. -/
def summarize_chat_history (client : OneShotClient) (st : LLMState) :
    Except LLMError (List Message) :=
  let system_prompt :=
    "Summarize this conversation, preserving the most crucial information for maintaining dialogue context:"
  let user_prompt := String.intercalate " "
    (st.summarized_message_history.dropLast.map
      (fun message => message.role ++ ": " ++ message.content))
  match gpt4_one_shot client system_prompt user_prompt false with
  | Except.error e => Except.error e
  | Except.ok response => Except.ok [{ role := "system", content := response }]

/-- llm.manage_context_window (llm.py lines 59-80).  Returns the object
state after the call together with the returned context window, or the
propagated error.  On an error the state is unchanged, because in the source
the assignment to summarized_message_history happens only after
summarize_chat_history returns and the final-element lookup succeeds. -/
def manage_context_window (client : OneShotClient) (st : LLMState) :
    LLMState × Except LLMError (List Message) :=
  if calculate_total_tokens st.summarized_message_history ≥
      token_threshold_to_trigger_summarization then
    match summarize_chat_history client st with
    | Except.error e => (st, Except.error e)
    | Except.ok summarized_history =>
      match st.summarized_message_history.getLast? with
      | none => (st, Except.error LLMError.indexError)
      | some last =>
        ({ st with summarized_message_history := summarized_history ++ [last] },
         Except.ok (summarized_history ++ [last]))
  else (st, Except.ok st.summarized_message_history)

/-- llm.send_message (llm.py lines 82-130).  The role check is the if-elif
chain of lines 110-117; json_response is accepted but never forwarded (line
125 calls gpt4_conversation with its default json_response=False).  Returns
the object state after the call together with the reply or the propagated
error. -/
def send_message (conv_client : ConvClient) (one_shot_client : OneShotClient)
    (st : LLMState) (prompt : String) (role : String) (json_response : Bool) :
    LLMState × Except LLMError String :=
  match (if role = "user" then some { role := "user", content := prompt }
         else if role = "assistant" then some { role := "assistant", content := prompt }
         else if role = "system" then some { role := "system", content := prompt }
         else none : Option Message) with
  | none => (st, Except.error LLMError.invalidRole)
  | some message =>
    match manage_context_window one_shot_client (add_message_to_history st message) with
    | (st2, Except.error e) => (st2, Except.error e)
    | (st2, Except.ok context_window) =>
      match gpt4_conversation conv_client context_window false with
      | Except.error e => (st2, Except.error e)
      | Except.ok response =>
        (add_message_to_history st2 { role := "assistant", content := response.content },
         Except.ok response.content)

/-- Folds a list of send_message turns (prompt, role, json_response flag)
through the state, keeping the state of each call whether it succeeds or
fails, as the Python object would. -/
def run_turns (conv_client : ConvClient) (one_shot_client : OneShotClient) :
    List (String × String × Bool) → LLMState → LLMState
  | [], st => st
  | t :: ts, st =>
    run_turns conv_client one_shot_client ts
      (send_message conv_client one_shot_client st t.1 t.2.1 t.2.2).1

/-! ### Helper lemmas about the token estimator -/

/-- Appending characters cannot decrease the number of word runs. -/
theorem countWords_append_le (l1 l2 : List Char) (b : Bool) :
    countWords l1 b ≤ countWords (l1 ++ l2) b := by
  induction l1 generalizing b with
  | nil => exact Nat.zero_le _
  | cons c cs ih =>
    simp only [List.cons_append, countWords]
    by_cases h : c.isWhitespace
    · simp only [h, if_true]
      exact ih false
    · simp only [h, if_false]
      exact Nat.add_le_add_left (ih true) _

/-- Appending text to a string cannot decrease its word count. -/
theorem wordCount_le_append (s t : String) : wordCount s ≤ wordCount (s ++ t) := by
  show countWords s.toList false ≤ countWords (s ++ t).toList false
  have h : (s ++ t).toList = s.toList ++ t.toList := by
    cases s with
    | mk d1 =>
      cases t with
      | mk d2 => rfl
  rw [h]
  exact countWords_append_le s.toList t.toList false

theorem calculate_total_tokens_foldl (acc : Nat) (messages : List Message) :
    List.foldl (fun a message => a + wordCount message.content) acc messages =
      acc + (messages.map (fun message => wordCount message.content)).sum := by
  induction messages generalizing acc with
  | nil => simp
  | cons m ms ih =>
    simp only [List.foldl_cons, List.map_cons, List.sum_cons]
    rw [ih]
    omega

/-- The estimator is the sum of the per-message word counts. -/
theorem calculate_total_tokens_sum (messages : List Message) :
    calculate_total_tokens messages =
      (messages.map (fun message => wordCount message.content)).sum := by
  unfold calculate_total_tokens
  rw [calculate_total_tokens_foldl]
  omega

/-! ### Helper lemmas about manage_context_window -/

/-- manage_context_window never touches the full (verbatim) history. -/
theorem manage_fst_full (client : OneShotClient) (st : LLMState) :
    (manage_context_window client st).1.full_message_history =
      st.full_message_history := by
  unfold manage_context_window
  split
  · split
    · rfl
    · split
      · rfl
      · rfl
  · rfl

/-- manage_context_window preserves the last element of the active history. -/
theorem manage_fst_last (client : OneShotClient) (st : LLMState) :
    (manage_context_window client st).1.summarized_message_history.getLast? =
      st.summarized_message_history.getLast? := by
  unfold manage_context_window
  split
  · split
    · rfl
    · split
      · rfl
      · rename_i summarized_history last hlast
        simp only [List.getLast?_concat]
        exact hlast.symm
  · rfl

/-! ### Concrete fixtures used by the witnesses and the counterexample -/

/-- A string of 1024 whitespace-separated words, so that its word count
meets the default threshold of 1024. -/
def big_content : String := String.mk (List.replicate 1024 (['a', ' '])).flatten

theorem countWords_replicate (n : Nat) :
    countWords (List.replicate n (['a', ' '])).flatten false = n := by
  induction n with
  | zero => rfl
  | succ k ih =>
    rw [List.replicate_succ, List.flatten_cons]
    show countWords ('a' :: ' ' :: (List.replicate k (['a', ' '])).flatten) false = k + 1
    have ha : ('a').isWhitespace = false := by decide
    have hs : (' ').isWhitespace = true := by decide
    simp [countWords, ha, hs, ih]
    omega

/-- A single user message holding 1024 words. -/
def bigMsg : Message := { role := "user", content := big_content }

/-- The state of a session right after that single big message was appended:
both histories hold exactly this one message. -/
def bigState : LLMState :=
  { full_message_history := [bigMsg], summarized_message_history := [bigMsg] }

theorem big_wordCount : wordCount big_content = 1024 := by
  unfold wordCount big_content
  exact countWords_replicate 1024

theorem big_tokens : calculate_total_tokens [bigMsg] = 1024 := by
  rw [calculate_total_tokens_sum]
  simp only [List.map_cons, List.map_nil, List.sum_cons, List.sum_nil, Nat.add_zero]
  exact big_wordCount

/-- A generation-service double whose one-shot endpoint always succeeds with
a short reply. -/
def okClient : OneShotClient := fun _ _ _ => Except.ok { content := "summary", total_tokens := 10 }

/-- A generation-service double whose one-shot endpoint always fails. -/
def failClient : OneShotClient := fun _ _ _ => Except.error LLMError.serviceError

/-- A multi-turn endpoint double that succeeds with a small token usage. -/
def convOk : ConvClient := fun _ _ => Except.ok { content := "reply", total_tokens := 42 }

/-- A multi-turn endpoint double that reports total_tokens = 5000, over the
4096 hard ceiling. -/
def convBig : ConvClient := fun _ _ => Except.ok { content := "reply", total_tokens := 5000 }

/-- The state at session start: both histories empty (llm.py lines 7-8). -/
def emptyState : LLMState :=
  { full_message_history := [], summarized_message_history := [] }

/-- A short message, well below the threshold. -/
def smallMsg : Message := { role := "user", content := "hello" }

/-- A session state holding just the short message. -/
def smallState : LLMState :=
  { full_message_history := [smallMsg], summarized_message_history := [smallMsg] }

/-- The system message returned by summarize_chat_history under okClient. -/
def sysSummaryMsg : Message := { role := "system", content := "summary" }

theorem big_thr :
    calculate_total_tokens bigState.summarized_message_history ≥
      token_threshold_to_trigger_summarization := by
  show calculate_total_tokens [bigMsg] ≥ 1024
  rw [big_tokens]

theorem big_summarize_ok :
    summarize_chat_history okClient bigState = Except.ok [sysSummaryMsg] := rfl

theorem big_summarize_fail :
    summarize_chat_history failClient bigState = Except.error LLMError.serviceError := rfl

theorem big_manage_ok :
    manage_context_window okClient bigState =
      (LLMState.mk [bigMsg] [sysSummaryMsg, bigMsg], Except.ok [sysSummaryMsg, bigMsg]) := by
  unfold manage_context_window
  rw [if_pos big_thr, big_summarize_ok]
  rfl

theorem big_manage_fail :
    manage_context_window failClient bigState =
      (bigState, Except.error LLMError.serviceError) := by
  unfold manage_context_window
  rw [if_pos big_thr, big_summarize_fail]

/-! ### Unfolding lemmas for send_message at literal roles -/

theorem send_message_user (conv_client : ConvClient) (one_shot_client : OneShotClient)
    (st : LLMState) (prompt : String) (json_response : Bool) :
    send_message conv_client one_shot_client st prompt "user" json_response =
      (match manage_context_window one_shot_client
          (add_message_to_history st { role := "user", content := prompt }) with
       | (st2, Except.error e) => (st2, Except.error e)
       | (st2, Except.ok context_window) =>
         match gpt4_conversation conv_client context_window false with
         | Except.error e => (st2, Except.error e)
         | Except.ok response =>
           (add_message_to_history st2 { role := "assistant", content := response.content },
            Except.ok response.content)) := rfl

theorem send_message_assistant (conv_client : ConvClient) (one_shot_client : OneShotClient)
    (st : LLMState) (prompt : String) (json_response : Bool) :
    send_message conv_client one_shot_client st prompt "assistant" json_response =
      (match manage_context_window one_shot_client
          (add_message_to_history st { role := "assistant", content := prompt }) with
       | (st2, Except.error e) => (st2, Except.error e)
       | (st2, Except.ok context_window) =>
         match gpt4_conversation conv_client context_window false with
         | Except.error e => (st2, Except.error e)
         | Except.ok response =>
           (add_message_to_history st2 { role := "assistant", content := response.content },
            Except.ok response.content)) := rfl

theorem send_message_system (conv_client : ConvClient) (one_shot_client : OneShotClient)
    (st : LLMState) (prompt : String) (json_response : Bool) :
    send_message conv_client one_shot_client st prompt "system" json_response =
      (match manage_context_window one_shot_client
          (add_message_to_history st { role := "system", content := prompt }) with
       | (st2, Except.error e) => (st2, Except.error e)
       | (st2, Except.ok context_window) =>
         match gpt4_conversation conv_client context_window false with
         | Except.error e => (st2, Except.error e)
         | Except.ok response =>
           (add_message_to_history st2 { role := "assistant", content := response.content },
            Except.ok response.content)) := rfl

/-- A successful summarize_chat_history result is always a one-element
system-role history. -/
theorem summarize_ok_shape (client : OneShotClient) (st : LLMState)
    (l : List Message) (h : summarize_chat_history client st = Except.ok l) :
    ∃ reply, l = [{ role := "system", content := reply }] := by
  unfold summarize_chat_history at h
  simp only [] at h
  split at h
  · exact absurd h (by simp)
  · rename_i response heq
    exact ⟨response, (Except.ok.inj h).symm⟩

/-- Whatever send_message does, the full history only grows at the end. -/
theorem send_full_growth (conv_client : ConvClient) (one_shot_client : OneShotClient)
    (st : LLMState) (prompt role : String) (json_response : Bool) :
    ∃ r, (send_message conv_client one_shot_client st prompt role
        json_response).1.full_message_history =
      st.full_message_history ++ r := by
  unfold send_message
  split
  · exact ⟨[], (List.append_nil _).symm⟩
  · rename_i message heq
    split
    · rename_i st2 e hm
      refine ⟨[message], ?_⟩
      have h := manage_fst_full one_shot_client (add_message_to_history st message)
      rw [hm] at h
      exact h
    · rename_i st2 context_window hm
      split
      · rename_i e hg
        refine ⟨[message], ?_⟩
        have h := manage_fst_full one_shot_client (add_message_to_history st message)
        rw [hm] at h
        exact h
      · rename_i response hg
        refine ⟨[message, { role := "assistant", content := response.content }], ?_⟩
        have h := manage_fst_full one_shot_client (add_message_to_history st message)
        rw [hm] at h
        have h2 : st2.full_message_history = st.full_message_history ++ [message] := h
        show st2.full_message_history ++ [{ role := "assistant", content := response.content }] = _
        rw [h2, List.append_assoc]
        rfl

/-- Over any whole sequence of turns, the full history only grows. -/
theorem run_turns_full_growth (conv_client : ConvClient) (one_shot_client : OneShotClient)
    (turns : List (String × String × Bool)) (st : LLMState) :
    ∃ r, (run_turns conv_client one_shot_client turns st).full_message_history =
      st.full_message_history ++ r := by
  induction turns generalizing st with
  | nil => exact ⟨[], (List.append_nil _).symm⟩
  | cons t ts ih =>
    obtain ⟨r1, h1⟩ := send_full_growth conv_client one_shot_client st t.1 t.2.1 t.2.2
    obtain ⟨r2, h2⟩ := ih (send_message conv_client one_shot_client st t.1 t.2.1 t.2.2).1
    refine ⟨r1 ++ r2, ?_⟩
    show (run_turns conv_client one_shot_client ts
      (send_message conv_client one_shot_client st t.1 t.2.1 t.2.2).1).full_message_history = _
    rw [h2, h1, List.append_assoc]

/-- C7: the verbatim history (full_message_history) is append-only: after
add_message_to_history, manage_context_window, send_message, and any
sequence of send_message turns, the prior full history is a prefix of the
new one; it is never shortened, reordered, or compressed. -/
theorem verbatim_history_append_only :
    (∀ (st : LLMState) (message : Message), ∃ r,
      (add_message_to_history st message).full_message_history =
        st.full_message_history ++ r) ∧
    (∀ (client : OneShotClient) (st : LLMState), ∃ r,
      (manage_context_window client st).1.full_message_history =
        st.full_message_history ++ r) ∧
    (∀ (conv_client : ConvClient) (one_shot_client : OneShotClient)
        (st : LLMState) (prompt role : String) (json_response : Bool), ∃ r,
      (send_message conv_client one_shot_client st prompt role
          json_response).1.full_message_history =
        st.full_message_history ++ r) ∧
    (∀ (conv_client : ConvClient) (one_shot_client : OneShotClient)
        (turns : List (String × String × Bool)) (st : LLMState), ∃ r,
      (run_turns conv_client one_shot_client turns st).full_message_history =
        st.full_message_history ++ r) := by
  refine ⟨fun st message => ⟨[message], rfl⟩, fun client st => ⟨[], ?_⟩,
    send_full_growth, run_turns_full_growth⟩
  rw [manage_fst_full, List.append_nil]

/-- C8: calculate_total_tokens returns the sum over the messages of the
whitespace-delimited word count of each content, and returns 0 on the empty
sequence.  It is a total pure function, hence deterministic and free of
error conditions. -/
theorem calculate_total_tokens_word_count_spec :
    (∀ messages : List Message,
      calculate_total_tokens messages =
        (messages.map (fun message => wordCount message.content)).sum) ∧
    calculate_total_tokens ([] : List Message) = 0 :=
  ⟨calculate_total_tokens_sum, rfl⟩

/-- C9: the estimator never decreases when the content of any message of the
sequence is extended by concatenating additional text; as a pure function it
is deterministic. -/
theorem estimator_monotone_under_concat (l1 l2 : List Message) (m : Message)
    (t : String) :
    calculate_total_tokens (l1 ++ m :: l2) ≤
      calculate_total_tokens
        (l1 ++ { role := m.role, content := m.content ++ t } :: l2) := by
  rw [calculate_total_tokens_sum, calculate_total_tokens_sum]
  simp only [List.map_append, List.map_cons, List.sum_append, List.sum_cons]
  have h := wordCount_le_append m.content t
  omega

/-- C10: the json_response parameter of send_message has no effect: two calls
differing only in that flag produce identical results (same request to the
multi-turn call, same histories, same reply), because the flag is never
forwarded to gpt4_conversation. -/
theorem json_response_has_no_effect (conv_client : ConvClient)
    (one_shot_client : OneShotClient) (st : LLMState) (prompt role : String)
    (b1 b2 : Bool) :
    send_message conv_client one_shot_client st prompt role b1 =
      send_message conv_client one_shot_client st prompt role b2 := rfl

/-- C3: below the threshold, manage_context_window returns the active history
unchanged and does not change the state, so consecutive repeated calls keep
returning the same unchanged sequence; no summarization is invoked. -/
theorem below_threshold_idempotent (client : OneShotClient) (st : LLMState)
    (hthr : calculate_total_tokens st.summarized_message_history <
      token_threshold_to_trigger_summarization) :
    manage_context_window client st = (st, Except.ok st.summarized_message_history) ∧
    manage_context_window client (manage_context_window client st).1 =
      (st, Except.ok st.summarized_message_history) := by
  have hnot : ¬ (calculate_total_tokens st.summarized_message_history ≥
      token_threshold_to_trigger_summarization) := by omega
  have h1 : manage_context_window client st =
      (st, Except.ok st.summarized_message_history) := by
    unfold manage_context_window
    rw [if_neg hnot]
  refine ⟨h1, ?_⟩
  rw [h1]
  exact h1

/-- Witness for C3 at a concrete one-message state of 1 word. -/
theorem below_threshold_idempotent_witness :
    (calculate_total_tokens smallState.summarized_message_history <
      token_threshold_to_trigger_summarization) ∧
    (manage_context_window okClient smallState =
        (smallState, Except.ok smallState.summarized_message_history) ∧
      manage_context_window okClient (manage_context_window okClient smallState).1 =
        (smallState, Except.ok smallState.summarized_message_history)) :=
  ⟨by decide, below_threshold_idempotent okClient smallState (by decide)⟩

/-- C2 counterexample: an active history with a single message whose content
holds 1024 words reaches the threshold, and manage_context_window does
invoke the summarizer on it, observable because the failure of the one-shot
service double propagates; this refutes the claim that a history with fewer
than 2 messages never invokes the summarizer. -/
theorem single_big_message_invokes_summarizer :
    bigState.summarized_message_history.length < 2 ∧
    manage_context_window failClient bigState =
      (bigState, Except.error LLMError.serviceError) :=
  ⟨by decide, big_manage_fail⟩

/-- C2 amended: the builder skips the summarizer exactly when the estimate is
below the threshold; in particular, for a history with fewer than 2 messages
whose estimated token count is below the threshold, the summarizer is never
invoked (the result does not depend on the one-shot service at all).  A
history with fewer than 2 messages at or above the threshold does invoke it. -/
theorem below_threshold_short_history_no_summarization
    (client client2 : OneShotClient) (st : LLMState)
    (hlen : st.summarized_message_history.length < 2)
    (hthr : calculate_total_tokens st.summarized_message_history <
      token_threshold_to_trigger_summarization) :
    manage_context_window client st =
      (st, Except.ok st.summarized_message_history) ∧
    manage_context_window client st = manage_context_window client2 st := by
  have hnot : ¬ (calculate_total_tokens st.summarized_message_history ≥
      token_threshold_to_trigger_summarization) := by omega
  constructor
  · unfold manage_context_window
    rw [if_neg hnot]
  · unfold manage_context_window
    rw [if_neg hnot, if_neg hnot]

/-- Witness for the amended C2 at the empty session state. -/
theorem below_threshold_short_history_no_summarization_witness :
    (emptyState.summarized_message_history.length < 2 ∧
      calculate_total_tokens emptyState.summarized_message_history <
        token_threshold_to_trigger_summarization) ∧
    (manage_context_window okClient emptyState =
        (emptyState, Except.ok emptyState.summarized_message_history) ∧
      manage_context_window okClient emptyState =
        manage_context_window failClient emptyState) :=
  ⟨⟨by decide, by decide⟩,
    below_threshold_short_history_no_summarization okClient failClient emptyState
      (by decide) (by decide)⟩

/-- C1: whenever the estimated token count of the active history reaches the
threshold and manage_context_window completes, the new active history has
exactly 2 elements: a system-role message holding the reply of the
summarizer, followed by the last element of the pre-compression active
history, unchanged; the returned window is that same list. -/
theorem compression_invariant_two_elements (client : OneShotClient)
    (st st2 : LLMState) (w : List Message)
    (hthr : calculate_total_tokens st.summarized_message_history ≥
      token_threshold_to_trigger_summarization)
    (hrun : manage_context_window client st = (st2, Except.ok w)) :
    ∃ reply last,
      summarize_chat_history client st =
        Except.ok [{ role := "system", content := reply }] ∧
      st.summarized_message_history.getLast? = some last ∧
      st2.summarized_message_history = [{ role := "system", content := reply }, last] ∧
      w = [{ role := "system", content := reply }, last] := by
  unfold manage_context_window at hrun
  rw [if_pos hthr] at hrun
  split at hrun
  · simp at hrun
  · rename_i summarized_history heq
    split at hrun
    · simp at hrun
    · rename_i last hlast
      obtain ⟨reply, hshape⟩ := summarize_ok_shape client st summarized_history heq
      subst hshape
      rw [Prod.mk.injEq] at hrun
      obtain ⟨h1, h2⟩ := hrun
      refine ⟨reply, last, heq, hlast, ?_, (Except.ok.inj h2).symm⟩
      rw [← h1]
      rfl

/-- Witness for C1 at the one-message, 1024-word state with a service double
that replies with the text summary. -/
theorem compression_invariant_two_elements_witness :
    (calculate_total_tokens bigState.summarized_message_history ≥
      token_threshold_to_trigger_summarization) ∧
    ∃ reply last,
      summarize_chat_history okClient bigState =
        Except.ok [{ role := "system", content := reply }] ∧
      bigState.summarized_message_history.getLast? = some last ∧
      (LLMState.mk [bigMsg] [sysSummaryMsg, bigMsg]).summarized_message_history =
        [{ role := "system", content := reply }, last] ∧
      [sysSummaryMsg, bigMsg] = [{ role := "system", content := reply }, last] :=
  ⟨big_thr,
    compression_invariant_two_elements okClient bigState
      (LLMState.mk [bigMsg] [sysSummaryMsg, bigMsg]) [sysSummaryMsg, bigMsg]
      big_thr big_manage_ok⟩

/-- C4: if the one-shot summarization call fails, the error propagates out of
manage_context_window and out of send_message, and both histories are
exactly what they were before the failing call (the user turn had already
been appended by send_message); the active history is replaced only after
the summarizer call fully succeeds. -/
theorem summarizer_failure_no_mutation (conv_client : ConvClient)
    (one_shot_client : OneShotClient) (st : LLMState) (prompt role : String)
    (json_response : Bool) (e : LLMError)
    (hrole : role = "user" ∨ role = "assistant" ∨ role = "system")
    (hthr : calculate_total_tokens
        (add_message_to_history st
          { role := role, content := prompt }).summarized_message_history ≥
      token_threshold_to_trigger_summarization)
    (hfail : summarize_chat_history one_shot_client
        (add_message_to_history st { role := role, content := prompt }) =
      Except.error e) :
    manage_context_window one_shot_client
        (add_message_to_history st { role := role, content := prompt }) =
      (add_message_to_history st { role := role, content := prompt },
        Except.error e) ∧
    send_message conv_client one_shot_client st prompt role json_response =
      (add_message_to_history st { role := role, content := prompt },
        Except.error e) := by
  have hm : manage_context_window one_shot_client
      (add_message_to_history st { role := role, content := prompt }) =
      (add_message_to_history st { role := role, content := prompt },
        Except.error e) := by
    unfold manage_context_window
    rw [if_pos hthr, hfail]
  refine ⟨hm, ?_⟩
  rcases hrole with h | h | h
  · subst h
    rw [send_message_user, hm]
  · subst h
    rw [send_message_assistant, hm]
  · subst h
    rw [send_message_system, hm]

/-- Witness for C4: a first turn of 1024 words with a failing one-shot
service double; the state after the call is exactly the appended turn. -/
theorem summarizer_failure_no_mutation_witness :
    ((("user" : String) = "user" ∨ ("user" : String) = "assistant" ∨
        ("user" : String) = "system") ∧
      calculate_total_tokens
          (add_message_to_history emptyState
            { role := "user", content := big_content }).summarized_message_history ≥
        token_threshold_to_trigger_summarization ∧
      summarize_chat_history failClient
          (add_message_to_history emptyState { role := "user", content := big_content }) =
        Except.error LLMError.serviceError) ∧
    (manage_context_window failClient
        (add_message_to_history emptyState { role := "user", content := big_content }) =
      (add_message_to_history emptyState { role := "user", content := big_content },
        Except.error LLMError.serviceError) ∧
    send_message convOk failClient emptyState big_content "user" false =
      (add_message_to_history emptyState { role := "user", content := big_content },
        Except.error LLMError.serviceError)) :=
  ⟨⟨Or.inl rfl, big_thr, rfl⟩,
    summarizer_failure_no_mutation convOk failClient emptyState big_content "user"
      false LLMError.serviceError (Or.inl rfl) big_thr rfl⟩

/-- C5: a role outside user, assistant and system makes send_message fail
with the invalid-role error, and neither history is mutated by the failed
call. -/
theorem invalid_role_no_mutation (conv_client : ConvClient)
    (one_shot_client : OneShotClient) (st : LLMState) (prompt role : String)
    (json_response : Bool) (h1 : role ≠ "user") (h2 : role ≠ "assistant")
    (h3 : role ≠ "system") :
    send_message conv_client one_shot_client st prompt role json_response =
      (st, Except.error LLMError.invalidRole) := by
  unfold send_message
  rw [if_neg h1, if_neg h2, if_neg h3]

/-- Witness for C5 with the role bogus from Scenario 3 of the spec. -/
theorem invalid_role_no_mutation_witness :
    (("bogus" : String) ≠ "user" ∧ ("bogus" : String) ≠ "assistant" ∧
      ("bogus" : String) ≠ "system") ∧
    send_message convOk okClient smallState "hello" "bogus" false =
      (smallState, Except.error LLMError.invalidRole) :=
  ⟨⟨by decide, by decide, by decide⟩,
    invalid_role_no_mutation convOk okClient smallState "hello" "bogus" false
      (by decide) (by decide) (by decide)⟩

/-- C6: when the multi-turn call reports total token usage above the 4096
hard ceiling, send_message surfaces the context-window-exceeded error; the
user message appended at the start of the call is still the last element of
the active history and the final element of the grown verbatim history, and
no assistant message is appended. -/
theorem ceiling_exceeded_keeps_user_message (conv_client : ConvClient)
    (one_shot_client : OneShotClient) (st st2 : LLMState) (prompt : String)
    (json_response : Bool) (w : List Message) (r : ChatResponse)
    (hmanage : manage_context_window one_shot_client
        (add_message_to_history st { role := "user", content := prompt }) =
      (st2, Except.ok w))
    (hconv : conv_client w false = Except.ok r)
    (htok : r.total_tokens > 4096) :
    send_message conv_client one_shot_client st prompt "user" json_response =
      (st2, Except.error LLMError.contextWindowExceeded) ∧
    st2.full_message_history =
      st.full_message_history ++ [{ role := "user", content := prompt }] ∧
    st2.summarized_message_history.getLast? =
      some { role := "user", content := prompt } := by
  have hfull : st2.full_message_history =
      st.full_message_history ++ [{ role := "user", content := prompt }] := by
    have h := manage_fst_full one_shot_client
      (add_message_to_history st { role := "user", content := prompt })
    rw [hmanage] at h
    exact h
  have hlast : st2.summarized_message_history.getLast? =
      some { role := "user", content := prompt } := by
    have h := manage_fst_last one_shot_client
      (add_message_to_history st { role := "user", content := prompt })
    rw [hmanage] at h
    have h2 : st2.summarized_message_history.getLast? =
        (st.summarized_message_history ++
          [({ role := "user", content := prompt } : Message)]).getLast? := h
    rw [h2, List.getLast?_concat]
  have hg : gpt4_conversation conv_client w false =
      Except.error LLMError.contextWindowExceeded := by
    unfold gpt4_conversation
    rw [hconv]
    show (if r.total_tokens > 4096 then Except.error LLMError.contextWindowExceeded
          else Except.ok r) = Except.error LLMError.contextWindowExceeded
    rw [if_pos htok]
  refine ⟨?_, hfull, hlast⟩
  rw [send_message_user, hmanage]
  show (match gpt4_conversation conv_client w false with
        | Except.error e => (st2, Except.error e)
        | Except.ok response =>
          (add_message_to_history st2 { role := "assistant", content := response.content },
           Except.ok response.content)) =
      (st2, Except.error LLMError.contextWindowExceeded)
  rw [hg]

/-- Witness for C6: the turn hello against a multi-turn double that reports
5000 total tokens. -/
theorem ceiling_exceeded_keeps_user_message_witness :
    (manage_context_window okClient
        (add_message_to_history emptyState { role := "user", content := "hello" }) =
      (smallState, Except.ok [smallMsg]) ∧
      convBig [smallMsg] false = Except.ok (ChatResponse.mk "reply" 5000) ∧
      (ChatResponse.mk "reply" 5000).total_tokens > 4096) ∧
    (send_message convBig okClient emptyState "hello" "user" false =
      (smallState, Except.error LLMError.contextWindowExceeded) ∧
    smallState.full_message_history =
      emptyState.full_message_history ++ [{ role := "user", content := "hello" }] ∧
    smallState.summarized_message_history.getLast? =
      some { role := "user", content := "hello" }) :=
  ⟨⟨rfl, rfl, by decide⟩,
    ceiling_exceeded_keeps_user_message convBig okClient emptyState smallState
      "hello" false [smallMsg] (ChatResponse.mk "reply" 5000) rfl rfl
      (by decide)⟩

end Llm
